import Mathlib

set_option linter.unusedVariables false

/-!
Shallow embedding of the session/profile/progress orchestration core of the
My-Tutor web client: the auth state container (`AuthContext.tsx`), the
supabase client module with its degraded-mode mock client and connection
probe, and the progress-initialization SQL trigger function.

Asynchronous backend calls are embedded as explicit outcome parameters
(`FetchOutcome`): each modelled operation is a pure state transformer over
the orchestrator state, parameterised by the outcome of every backend call
it performs.  JS exceptions are values (`JsError`), and a thrown exception
escaping an operation is recorded in the returned `ActionResult`.
-/

/-- Substring search helper: does the first list start with the second? -/
def listHasPrefixSeq : List Char → List Char → Bool
  | _, [] => true
  | [], _ :: _ => false
  | a :: as, b :: bs => a = b && listHasPrefixSeq as bs

/-- Does the second list occur contiguously inside the first? -/
def listContainsSeq (pat : List Char) : List Char → Bool
  | [] => pat.isEmpty
  | c :: rest => listHasPrefixSeq (c :: rest) pat || listContainsSeq pat rest

/-- JS `s.includes(pat)`: substring containment on strings. -/
def includes (s pat : String) : Bool :=
  listContainsSeq pat.toList s.toList

/-- A JS `Error` value: `name` and `message` are the fields the core inspects. -/
structure JsError where
  name : String
  message : String
deriving DecidableEq, Repr

/-- `connectionStatus` values of the orchestrator. -/
inductive ConnStatus
  | connected
  | disconnected
  | checking
deriving DecidableEq, Repr

/-- A supabase session object; the orchestrator only ever reads `session.user`,
modelled here by the user's id. -/
structure SessionObj where
  userId : String
deriving DecidableEq, Repr

/-- `UserProfile` row type from `src/lib/supabase` (`part_002`). -/
structure UserProfile where
  id : String
  first_name : String
  last_name : String
  grade : String
  board : Option String := none
  area : Option String := none
  profile_picture_url : Option String := none
  subject_group : Option String := none
  subjects : Option (List String) := none
  created_at : String := ""
  updated_at : String := ""
deriving DecidableEq, Repr

/-- `UserProgressStats` row type from `src/lib/supabase` (`part_002`).
JS numbers are modelled as `Nat` counters and a rational average; no claim
computes with them. -/
structure UserProgressStats where
  id : String
  user_id : String
  study_streak_days : Nat := 0
  total_study_time_minutes : Nat := 0
  completed_lessons : Nat := 0
  total_tests_taken : Nat := 0
  average_test_score : Rat := 0
  ai_sessions_count : Nat := 0
  weekly_study_time : Nat := 0
  monthly_study_time : Nat := 0
  last_study_date : Option String := none
  created_at : String := ""
  updated_at : String := ""
deriving DecidableEq, Repr

/-- `SubjectProgress` row type from `src/lib/supabase` (`part_002`). -/
structure SubjectProgress where
  id : String
  user_id : String
  subject_name : String
  progress_percentage : Nat := 0
  completed_topics : Nat := 0
  total_topics : Nat := 0
  last_accessed : String := ""
  created_at : String := ""
  updated_at : String := ""
deriving DecidableEq, Repr

/-- Subject-group aggregate returned by `SubjectGroupService.getUserSubjectGroup`;
the orchestrator only reads `subjects.length` (shape per spec §6:
`getSubjectGroup(userId) → \x7bsubjects: list<string>\x7d | none`). -/
structure SubjectGroup where
  subjects : List String
deriving DecidableEq, Repr

/-- The orchestrator's process-wide state: the React state fields of
`AuthProvider` in `AuthContext.tsx`.  `user` is modelled by the user id;
`isNewUser` mirrors both the state field and the localStorage flag, which the
code always writes together. -/
structure AuthState where
  user : Option String
  profile : Option UserProfile
  progressStats : Option UserProgressStats
  subjectProgress : List SubjectProgress
  session : Option SessionObj
  loading : Bool
  error : Option String
  isNewUser : Bool
  hasSubjectGroup : Bool
  connectionStatus : ConnStatus
deriving DecidableEq, Repr

/-- The initial `useState` values of `AuthProvider`. -/
def initialAuthState : AuthState where
  user := none
  profile := none
  progressStats := none
  subjectProgress := []
  session := none
  loading := true
  error := none
  isNewUser := false
  hasSubjectGroup := false
  connectionStatus := .checking

/-- Outcome of one awaited backend call: it either resolves with a value or
throws a JS error. -/
inductive FetchOutcome (α : Type)
  | ok (v : α)
  | threw (e : JsError)
deriving DecidableEq, Repr

/-- How a modelled orchestrator action terminates: a normal return or a thrown
(or rethrown) exception. -/
inductive ActionResult
  | returned
  | threw (e : JsError)
deriving DecidableEq, Repr

/-- The error thrown by `recordStudySession` / `updateProfile` when no user is
logged in. -/
def noUserError : JsError := ⟨"Error", "No user logged in"⟩

/-- Error message installed by `handleSupabaseError` for fetch/network-classified
messages. -/
def cannotConnectMsg : String :=
  "🚨 Cannot Connect to Supabase\n\nYour Supabase project appears to be unavailable.\n\nTo fix this:\n1. Go to https://supabase.com/dashboard\n2. Check if your project is paused and resume it\n3. Wait 2-3 minutes for full restart\n4. Refresh this page"

/-- Error message installed by `handleSupabaseError` for database-fault
messages. -/
def projectIssueMsg : String :=
  "🚨 Supabase Project Issue\n\nYour Supabase project appears to be paused or experiencing database issues.\n\nTo fix this:\n1. Go to https://supabase.com/dashboard\n2. Find your project and click \"Resume\" if paused\n3. Wait 2-3 minutes for full restart\n4. Try again"

/-- Error message set on the startup session-check timeout (`AbortError` path of
`getInitialSession`). -/
def connTimeoutMsg : String :=
  "🚨 Connection Timeout\n\nUnable to connect to Supabase. Your project may be paused.\n\nPlease check https://supabase.com/dashboard"

/-- `handleSupabaseError(error, context)` from `AuthContext.tsx`: classifies the
error and updates `connectionStatus`/`error`.  All thrown values in this
codebase are `Error` instances, so the final fallback reads `error.message`. -/
def handleSupabaseError (e : JsError) (context : String) (s : AuthState) : AuthState :=
  if e.name = "SupabaseConnectionError" ∨ e.name = "SupabaseTimeoutError" then
    { s with connectionStatus := .disconnected, error := some e.message }
  else if includes e.message "Failed to fetch" = true ∨
          includes e.message "NetworkError" = true ∨
          includes e.message "Connection timeout" = true ∨
          includes e.message "fetch is not defined" = true then
    { s with connectionStatus := .disconnected, error := some cannotConnectMsg }
  else if includes e.message "Database error saving new user" = true ∨
          includes e.message "unexpected_failure" = true then
    { s with connectionStatus := .disconnected, error := some projectIssueMsg }
  else
    { s with error := some e.message }

/-- `loadUserProfile(userId)` from `AuthContext.tsx`, parameterised by the
outcome of `AuthService.getUserProfile`.  On success it stores the profile and
marks the connection connected; on failure it classifies the error and then
clears the profile. -/
def loadUserProfile (s : AuthState) (res : FetchOutcome UserProfile) : AuthState :=
  let s1 := { s with error := none }
  match res with
  | .ok p => { s1 with profile := some p, connectionStatus := .connected }
  | .threw e => { handleSupabaseError e "Load user profile" s1 with profile := none }

/-- `loadUserProgress(userId)` from `AuthContext.tsx`, parameterised by the
outcomes of `ProgressService.getUserProgress` and
`ProgressService.getSubjectProgress` (awaited in that order inside one `try`).
Failures are only logged: no `error`/`connectionStatus` update. -/
def loadUserProgress (s : AuthState)
    (statsRes : FetchOutcome UserProgressStats)
    (subjRes : FetchOutcome (List SubjectProgress)) : AuthState :=
  match statsRes with
  | .threw _ => s
  | .ok stats =>
    let s1 := { s with progressStats := some stats }
    match subjRes with
    | .threw _ => s1
    | .ok subjects => { s1 with subjectProgress := subjects }

/-- `checkSubjectGroupSelection(userId)` from `AuthContext.tsx`, parameterised
by the outcome of `SubjectGroupService.getUserSubjectGroup`.  On success
`hasSubjectGroup := !!(subjectGroup && subjectGroup.subjects.length > 0)`;
on failure the error is logged and `hasSubjectGroup` is set to `false`. -/
def checkSubjectGroupSelection (s : AuthState)
    (res : FetchOutcome (Option SubjectGroup)) : AuthState :=
  match res with
  | .ok g =>
    { s with hasSubjectGroup := match g with
        | some grp => decide (grp.subjects.length > 0)
        | none => false }
  | .threw _ => { s with hasSubjectGroup := false }

/-- `refreshProgress()` from `AuthContext.tsx`: reloads progress only when a
user is present. -/
def refreshProgress (s : AuthState)
    (statsRes : FetchOutcome UserProgressStats)
    (subjRes : FetchOutcome (List SubjectProgress)) : AuthState :=
  match s.user with
  | some _ => loadUserProgress s statsRes subjRes
  | none => s

/-- `recordStudySession(...)` from `AuthContext.tsx`: throws `No user logged in`
before any backend call when `user` is null; otherwise appends the session
(outcome `recordRes`) and refreshes progress, rethrowing classified failures. -/
def recordStudySession (s : AuthState)
    (recordRes : FetchOutcome Unit)
    (statsRes : FetchOutcome UserProgressStats)
    (subjRes : FetchOutcome (List SubjectProgress)) : AuthState × ActionResult :=
  match s.user with
  | none => (s, .threw noUserError)
  | some _ =>
    match recordRes with
    | .ok _ => (refreshProgress s statsRes subjRes, .returned)
    | .threw e => (handleSupabaseError e "Record study session" s, .threw e)

/-- `retryProfileLoad()` from `AuthContext.tsx`: when a user is present, reloads
profile, progress and subject-group in sequence; otherwise does nothing. -/
def retryProfileLoad (s : AuthState)
    (profileRes : FetchOutcome UserProfile)
    (statsRes : FetchOutcome UserProgressStats)
    (subjRes : FetchOutcome (List SubjectProgress))
    (groupRes : FetchOutcome (Option SubjectGroup)) : AuthState :=
  match s.user with
  | none => s
  | some _ =>
    checkSubjectGroupSelection
      (loadUserProgress (loadUserProfile s profileRes) statsRes subjRes)
      groupRes

/-- Outcome of the awaited `AuthService.signOut()` call. -/
inductive CallOutcome
  | ok
  | threw (e : JsError)
deriving DecidableEq, Repr

/-- `signOut()` from `AuthContext.tsx`.  The new-user flag is cleared before the
backend call; the entity clears and `connectionStatus := connected` happen only
after the call resolves.  A thrown call is classified and rethrown, and the
`finally` block resets `loading`. -/
def signOut (s : AuthState) (outcome : CallOutcome) : AuthState × ActionResult :=
  let s1 := { s with loading := true, error := none, isNewUser := false }
  match outcome with
  | .ok =>
    ({ s1 with user := none, profile := none, progressStats := none,
               subjectProgress := [], session := none, hasSubjectGroup := false,
               connectionStatus := .connected, loading := false }, .returned)
  | .threw e =>
    ({ handleSupabaseError e "Sign out" s1 with loading := false }, .threw e)

/-- Outcome of the bounded `AuthService.getCurrentUser()` call in
`getInitialSession`: success with an optional user, the timeout `AbortError`,
or another thrown error. -/
inductive SessionFetchOutcome
  | ok (u : Option String)
  | abortError
  | threw (e : JsError)
deriving DecidableEq, Repr

/-- `getInitialSession()` from `AuthContext.tsx` (the mounted run): its
synchronous state effects, parameterised by the outcome of the bounded session
fetch and by the `isNewUser` localStorage flag.  The background fan-out loads
it fires on success are separate asynchronous transitions, not part of this
step. -/
def getInitialSession (s : AuthState) (newUserFlag : Bool)
    (outcome : SessionFetchOutcome) : AuthState :=
  let s1 := { s with error := none, connectionStatus := .checking }
  match outcome with
  | .ok u =>
    let s2 := { s1 with user := u, connectionStatus := .connected }
    let s3 := match u with
      | some _ => { s2 with isNewUser := newUserFlag }
      | none => s2
    { s3 with loading := false }
  | .abortError =>
    { s1 with connectionStatus := .disconnected, error := some connTimeoutMsg,
              loading := false }
  | .threw e =>
    let s2 := { s1 with user := none, profile := none, progressStats := none,
                        subjectProgress := [], hasSubjectGroup := false }
    { handleSupabaseError e "Initial session" s2 with loading := false }

/-- One session-change notification as delivered to the `onAuthStateChange`
handler, together with the `isNewUser` localStorage flag read while handling
it. -/
structure AuthNotification where
  event : String
  session : Option SessionObj
  newUserFlag : Bool

/-- The `onAuthStateChange` handler from `AuthContext.tsx` (the mounted case):
clears the error, replaces `session`/`user` wholesale, then either marks the
connection connected and refreshes the new-user flag (session present) or
clears all dependent entities (no session); always ends with
`loading := false`.  The fan-out loads fired when a user is present are
separate asynchronous transitions. -/
def onAuthStateChange (s : AuthState) (n : AuthNotification) : AuthState :=
  let s1 := { s with error := none, session := n.session,
                     user := n.session.map SessionObj.userId }
  let s2 := match n.session with
    | some _ => { s1 with connectionStatus := .connected, isNewUser := n.newUserFlag }
    | none => { s1 with profile := none, progressStats := none,
                        subjectProgress := [], isNewUser := false,
                        hasSubjectGroup := false }
  { s2 with loading := false }

/-- `Partial<UserProfile>`: the `updates` argument of `updateProfile`.  A field
that is `none` is absent from the update object. -/
structure ProfileUpdates where
  id : Option String := none
  first_name : Option String := none
  last_name : Option String := none
  grade : Option String := none
  board : Option String := none
  area : Option String := none
  profile_picture_url : Option String := none
  subject_group : Option String := none
  subjects : Option (List String) := none
deriving DecidableEq, Repr

/-- JS `a || b || ''` over optional strings: the empty string and an absent
value are falsy. -/
def jsOrStr (a b : Option String) : String :=
  match a with
  | some x => if x ≠ "" then x else
      match b with
      | some y => if y ≠ "" then y else ""
      | none => ""
  | none =>
      match b with
      | some y => if y ≠ "" then y else ""
      | none => ""

/-- JS object spread `x` of an optional-field key: the update's value if the
key is present, otherwise the prior profile's value. -/
def spreadOpt (prior upd : Option String) : Option String :=
  match upd with
  | some v => some v
  | none => prior

/-- The `profileData` object `updateProfile` submits to the backend:
`\x7b...profile, ...updates\x7d` with `first_name`, `last_name`, `grade` forced
through the `updates.f || profile?.f || ''` chains. -/
structure ProfileData where
  id : Option String
  first_name : String
  last_name : String
  grade : String
  board : Option String
  area : Option String
  profile_picture_url : Option String
  subject_group : Option String
  subjects : Option (List String)
deriving DecidableEq, Repr

/-- The merge expression of `updateProfile` in `AuthContext.tsx`. -/
def buildProfileData (profile : Option UserProfile) (updates : ProfileUpdates) :
    ProfileData where
  id := spreadOpt (profile.map UserProfile.id) updates.id
  first_name := jsOrStr updates.first_name (profile.map UserProfile.first_name)
  last_name := jsOrStr updates.last_name (profile.map UserProfile.last_name)
  grade := jsOrStr updates.grade (profile.map UserProfile.grade)
  board := spreadOpt (profile.bind UserProfile.board) updates.board
  area := spreadOpt (profile.bind UserProfile.area) updates.area
  profile_picture_url :=
    spreadOpt (profile.bind UserProfile.profile_picture_url) updates.profile_picture_url
  subject_group := spreadOpt (profile.bind UserProfile.subject_group) updates.subject_group
  subjects :=
    match updates.subjects with
    | some v => some v
    | none => profile.bind UserProfile.subjects

/-- Result of a modelled `updateProfile` run: the final state, how the call
terminated, and the `profileData` object submitted to
`AuthService.updateUserProfile` (`none` when no backend call was made). -/
structure UpdateOut where
  state : AuthState
  result : ActionResult
  submitted : Option ProfileData
deriving DecidableEq, Repr

/-- `updateProfile(updates, profilePicture?)` from `AuthContext.tsx`.
Backend outcomes: `updateRes` for `AuthService.updateUserProfile`, `initRes`
for the two progress/subject initialization calls made for a flagged new user
(merged: either throws), then `statsRes`/`subjRes` for the internal
`loadUserProgress` and `groupRes` for `checkSubjectGroupSelection` (both of
which catch their own failures). -/
def updateProfile (s : AuthState) (updates : ProfileUpdates)
    (updateRes : FetchOutcome UserProfile)
    (initRes : FetchOutcome Unit)
    (statsRes : FetchOutcome UserProgressStats)
    (subjRes : FetchOutcome (List SubjectProgress))
    (groupRes : FetchOutcome (Option SubjectGroup)) : UpdateOut :=
  match s.user with
  | none => ⟨s, .threw noUserError, none⟩
  | some _ =>
    let s1 := { s with error := none }
    let profileData := buildProfileData s.profile updates
    match updateRes with
    | .threw e =>
      ⟨handleSupabaseError e "Profile update" s1, .threw e, some profileData⟩
    | .ok updatedProfile =>
      let s2 := { s1 with profile := some updatedProfile,
                          connectionStatus := .connected }
      if s2.isNewUser then
        match initRes with
        | .threw e =>
          ⟨handleSupabaseError e "Profile update" s2, .threw e, some profileData⟩
        | .ok _ =>
          let s3 := loadUserProgress s2 statsRes subjRes
          ⟨checkSubjectGroupSelection s3 groupRes, .returned, some profileData⟩
      else
        ⟨checkSubjectGroupSelection s2 groupRes, .returned, some profileData⟩

/-- The canonical "unavailable" error value of the mock client
(`createMockClient` in `part_002`). -/
structure MockError where
  message : String
  code : String
deriving DecidableEq, Repr

/-- `mockError` from `createMockClient`. -/
def mockUnavailableError : MockError :=
  ⟨"Supabase connection unavailable. Please check your project status.",
   "SUPABASE_UNAVAILABLE"⟩

/-- The operation surface of the mock client: every promise-returning leaf of
the object returned by `createMockClient` (auth, query-builder chains,
storage). -/
inductive MockOp
  | authGetUser
  | authGetSession
  | authSignUp
  | authSignInWithPassword
  | authSignOut
  | selectEqSingle
  | selectEqLimit
  | selectEqMaybeSingle
  | selectEqOrderLimit
  | selectLimit
  | selectOrderLimit
  | insert
  | updateEqSelectSingle
  | upsertSelectSingle
  | storageUpload
  | storageRemove
  | storageGetPublicUrl
deriving DecidableEq, Repr

/-- The `error` component each mock-client operation resolves with (all of them
resolve; none throws or rejects).  `storageGetPublicUrl` returns
`\x7bdata: \x7bpublicUrl: ''\x7d\x7d` synchronously, with no error field. -/
def mockOpError : MockOp → Option MockError
  | .authGetUser => none
  | .authGetSession => none
  | .authSignUp => some mockUnavailableError
  | .authSignInWithPassword => some mockUnavailableError
  | .authSignOut => none
  | .selectEqSingle => some mockUnavailableError
  | .selectEqLimit => none
  | .selectEqMaybeSingle => some mockUnavailableError
  | .selectEqOrderLimit => none
  | .selectLimit => none
  | .selectOrderLimit => none
  | .insert => some mockUnavailableError
  | .updateEqSelectSingle => some mockUnavailableError
  | .upsertSelectSingle => some mockUnavailableError
  | .storageUpload => some mockUnavailableError
  | .storageRemove => none
  | .storageGetPublicUrl => none

/-- The notifications the mock client's `onAuthStateChange` delivers: exactly
one synthetic `SIGNED_OUT` with no session (via `setTimeout(..., 100)`). -/
def mockAuthStateChangeEmissions : List (String × Option SessionObj) :=
  [("SIGNED_OUT", none)]

/-- A PostgREST/auth error value as inspected by `testSupabaseConnection`. -/
structure PgError where
  message : String
  code : String
deriving DecidableEq, Repr

/-- Outcome of one awaited check inside `testSupabaseConnection`: the call
either throws or resolves with an optional error object. -/
inductive CheckResult
  | threw
  | ok (err : Option PgError)
deriving DecidableEq, Repr

/-- The auth-check network classification of `testSupabaseConnection`
(`authError.message.includes(...)` chain in `part_002`). -/
def authNetworkPattern (e : PgError) : Bool :=
  includes e.message "Failed to fetch" || includes e.message "NetworkError" ||
  includes e.message "fetch is not defined"

/-- The data-check network classification of `testSupabaseConnection`
(`dbError.message.includes(...)` chain in `part_002`). -/
def dbNetworkPattern (e : PgError) : Bool :=
  includes e.message "Failed to fetch" || includes e.message "NetworkError" ||
  includes e.message "Connection timeout" || includes e.message "fetch is not defined"

/-- The tolerated absent-schema classification of `testSupabaseConnection`
(codes `PGRST116`/`42P01`, messages mentioning `relation`/`does not exist`). -/
def dbSchemaAbsentPattern (e : PgError) : Bool :=
  e.code == "PGRST116" || e.code == "42P01" ||
  includes e.message "relation" || includes e.message "does not exist"

/-- The backend-fault classification of `testSupabaseConnection`
(`Database error` / `unexpected_failure` messages). -/
def dbFaultPattern (e : PgError) : Bool :=
  includes e.message "Database error" || includes e.message "unexpected_failure"

/-- `testSupabaseConnection(client)` from `part_002`, parameterised by the
outcomes of its two checks (`client.auth.getSession()`, then the
`user_profiles` probe query; the second check only runs when the first one
does not throw).  The surrounding `try/catch` converts any thrown error to
`false`. -/
def testSupabaseConnection (authCheck dbCheck : CheckResult) : Bool :=
  match authCheck with
  | .threw => false
  | .ok authErr =>
    let authNetwork :=
      match authErr with
      | some e => authNetworkPattern e
      | none => false
    if authNetwork then false
    else
      match dbCheck with
      | .threw => false
      | .ok none => true
      | .ok (some e) =>
        if dbNetworkPattern e then false
        else if dbSchemaAbsentPattern e then true
        else if dbFaultPattern e then false
        else true

/-- The `user_progress_stats` table restricted to its unique `user_id` column:
one entry per row.  `INSERT ... VALUES (NEW.id) ON CONFLICT (user_id) DO
NOTHING` from the `initialize_user_progress` trigger function in the
`golden_cave` migration: under the unique constraint, a conflicting insert is
a no-op. -/
def initialize_user_progress (table : List String) (uid : String) : List String :=
  if uid ∈ table then table else table ++ [uid]

/-! ## Helper lemmas -/

theorem handleSupabaseError_profile (e : JsError) (c : String) (s : AuthState) :
    (handleSupabaseError e c s).profile = s.profile := by
  unfold handleSupabaseError; split_ifs <;> rfl

theorem handleSupabaseError_isNewUser (e : JsError) (c : String) (s : AuthState) :
    (handleSupabaseError e c s).isNewUser = s.isNewUser := by
  unfold handleSupabaseError; split_ifs <;> rfl

theorem handleSupabaseError_error_isSome (e : JsError) (c : String) (s : AuthState) :
    (handleSupabaseError e c s).error.isSome = true := by
  unfold handleSupabaseError; split_ifs <;> rfl

/-- A sample established profile used in concrete runs. -/
def sampleProfile : UserProfile :=
  { id := "u1", first_name := "Ann", last_name := "Lee", grade := "10" }

/-! ## C1 -/

/-- C1: when the bounded startup session fetch times out (`AbortError`), the
run of `getInitialSession` ends with `connectionStatus = disconnected`, a
non-empty error message, `loading = false`, and an untouched `user` field —
which is `none` in the initial state the startup run begins from. -/
theorem C1_startup_timeout_state (s : AuthState) (flag : Bool) :
    (getInitialSession s flag .abortError).connectionStatus = ConnStatus.disconnected ∧
    (getInitialSession s flag .abortError).error = some connTimeoutMsg ∧
    connTimeoutMsg ≠ "" ∧
    (getInitialSession s flag .abortError).loading = false ∧
    (getInitialSession s flag .abortError).user = s.user ∧
    (getInitialSession initialAuthState flag .abortError).user = none :=
  ⟨rfl, rfl, by decide, rfl, rfl, rfl⟩

/-! ## C4 -/

/-- A signed-in state with an established profile, observed while
disconnected. -/
def disconnectedSignedInState : AuthState :=
  { initialAuthState with
      user := some "u1"
      profile := some sampleProfile
      connectionStatus := ConnStatus.disconnected }

/-- C4 counterexample: when the awaited `AuthService.signOut()` call throws
(e.g. while disconnected with the real client installed), `signOut` clears
nothing beyond the new-user flag: the profile survives and `connectionStatus`
stays `disconnected`, contradicting "always clears … and sets
`connectionStatus = connected` regardless". -/
theorem C4_counterexample :
    ((signOut disconnectedSignedInState
        (CallOutcome.threw ⟨"SupabaseTimeoutError", "Connection timeout"⟩)).1).profile
      = some sampleProfile ∧
    ((signOut disconnectedSignedInState
        (CallOutcome.threw ⟨"SupabaseTimeoutError", "Connection timeout"⟩)).1).connectionStatus
      = ConnStatus.disconnected := by
  constructor
  · simpa using handleSupabaseError_profile ⟨"SupabaseTimeoutError", "Connection timeout"⟩
      "Sign out" _
  · rfl

/-- C4 (amended): whenever the backend `signOut` call resolves — always the
case through the degraded gateway, whose `signOut` never fails — `signOut`
clears Session, User Identity, Profile, ProgressStats, SubjectProgress and the
subject-group flag, and sets `connectionStatus = connected`, regardless of the
prior state; the local new-user flag alone is cleared unconditionally, even
when the call throws. -/
theorem C4_signOut_clears (s : AuthState) (e : JsError) :
    ((signOut s CallOutcome.ok).1).user = none ∧
    ((signOut s CallOutcome.ok).1).profile = none ∧
    ((signOut s CallOutcome.ok).1).progressStats = none ∧
    ((signOut s CallOutcome.ok).1).subjectProgress = [] ∧
    ((signOut s CallOutcome.ok).1).session = none ∧
    ((signOut s CallOutcome.ok).1).isNewUser = false ∧
    ((signOut s CallOutcome.ok).1).hasSubjectGroup = false ∧
    ((signOut s CallOutcome.ok).1).connectionStatus = ConnStatus.connected ∧
    ((signOut s CallOutcome.ok).1).loading = false ∧
    ((signOut s (CallOutcome.threw e)).1).isNewUser = false := by
  refine ⟨rfl, rfl, rfl, rfl, rfl, rfl, rfl, rfl, rfl, ?_⟩
  simpa using handleSupabaseError_isNewUser e "Sign out"
    { s with loading := true, error := none, isNewUser := false }

/-! ## C5 -/

/-- C5 counterexample: with a previously cached `hasSubjectGroup = true`, a
failing Subject-Group load does not retain the prior value — the handler
resets `hasSubjectGroup` to `false`. -/
theorem C5_counterexample :
    ({ initialAuthState with hasSubjectGroup := true } : AuthState).hasSubjectGroup = true ∧
    (checkSubjectGroupSelection { initialAuthState with hasSubjectGroup := true }
        (FetchOutcome.threw ⟨"Error", "subject group fetch failed"⟩)).hasSubjectGroup
      = false :=
  ⟨rfl, rfl⟩

/-- C5 (amended): failures of the background Progress and Subject-Group loads
are only logged — `error` and `connectionStatus` never change.  A failing
Progress load leaves the whole state untouched; a failing subject-progress
fetch after a successful stats fetch leaves everything but `progressStats`
untouched; a failing Subject-Group load changes only `hasSubjectGroup`,
resetting it to `false` rather than retaining the prior cached value. -/
theorem C5_background_load_failures (s : AuthState) (e e2 : JsError)
    (stats : UserProgressStats) (subjRes : FetchOutcome (List SubjectProgress)) :
    loadUserProgress s (FetchOutcome.threw e) subjRes = s ∧
    loadUserProgress s (FetchOutcome.ok stats) (FetchOutcome.threw e2) =
      { s with progressStats := some stats } ∧
    checkSubjectGroupSelection s (FetchOutcome.threw e) =
      { s with hasSubjectGroup := false } :=
  ⟨rfl, rfl, rfl⟩

/-! ## C9 -/

/-- C9: the `ON CONFLICT (user_id) DO NOTHING` insert of
`initialize_user_progress` is idempotent per user: from any table state
respecting the unique `user_id` constraint, inserting twice for the same user
leaves exactly one row for that user. -/
theorem C9_initialize_idempotent (t : List String) (uid : String)
    (h : List.count uid t ≤ 1) :
    List.count uid (initialize_user_progress (initialize_user_progress t uid) uid) = 1 := by
  by_cases hm : uid ∈ t
  · have hpos : 0 < List.count uid t := List.count_pos_iff.mpr hm
    simp only [initialize_user_progress, if_pos hm]
    omega
  · have hz : List.count uid t = 0 := List.count_eq_zero.mpr hm
    have hmem2 : uid ∈ t ++ [uid] := List.mem_append_right t (List.mem_singleton_self uid)
    simp [initialize_user_progress, if_neg hm, if_pos hmem2, List.count_append, hz]

/-- C9 witness: a concrete double insert into the empty table. -/
theorem C9_initialize_idempotent_witness :
    List.count "u1" ([] : List String) ≤ 1 ∧
    List.count "u1" (initialize_user_progress (initialize_user_progress [] "u1") "u1") = 1 :=
  ⟨by decide, C9_initialize_idempotent [] "u1" (by decide)⟩

/-! ## C10 -/

/-- C10: with no authenticated user, `recordStudySession` and `updateProfile`
throw `No user logged in` with the state untouched, and `refreshProgress` and
`retryProfileLoad` return the state untouched; all four results are
independent of every backend outcome, i.e. no backend call influences them. -/
theorem C10_no_user_guards (s : AuthState) (updates : ProfileUpdates)
    (recordRes : FetchOutcome Unit)
    (updateRes : FetchOutcome UserProfile) (initRes : FetchOutcome Unit)
    (statsRes : FetchOutcome UserProgressStats)
    (subjRes : FetchOutcome (List SubjectProgress))
    (profileRes : FetchOutcome UserProfile)
    (groupRes : FetchOutcome (Option SubjectGroup)) :
    noUserError.message = "No user logged in" ∧
    recordStudySession { s with user := none } recordRes statsRes subjRes =
      ({ s with user := none }, ActionResult.threw noUserError) ∧
    updateProfile { s with user := none } updates updateRes initRes statsRes subjRes groupRes =
      ⟨{ s with user := none }, ActionResult.threw noUserError, none⟩ ∧
    refreshProgress { s with user := none } statsRes subjRes = { s with user := none } ∧
    retryProfileLoad { s with user := none } profileRes statsRes subjRes groupRes =
      { s with user := none } :=
  ⟨rfl, rfl, rfl, rfl, rfl⟩

/-! ## C2 -/

/-- C2 counterexample: `auth.getUser` on the mock client is neither `signOut`
nor the session-change subscription, yet it resolves successfully
(`error = null`, a signed-out success result) instead of resolving with the
canonical unavailable error value. -/
theorem C2_counterexample :
    mockOpError MockOp.authGetUser = none ∧
    ¬ (∀ op : MockOp, op ≠ MockOp.authSignOut →
        mockOpError op = some mockUnavailableError) := by
  refine ⟨rfl, fun h => ?_⟩
  have h1 := h MockOp.authGetUser (by decide)
  simp [mockOpError] at h1

/-- The mock-client operations that resolve with the canonical unavailable
error value. -/
def mockUnavailableOps : List MockOp :=
  [.authSignUp, .authSignInWithPassword, .selectEqSingle, .selectEqMaybeSingle,
   .insert, .updateEqSelectSingle, .upsertSelectSingle, .storageUpload]

/-- C2 (amended): every mock-client operation resolves (none throws or
rejects).  The write-like and single-row operations (`signUp`,
`signInWithPassword`, `single`/`maybeSingle` reads, `insert`, `update`,
`upsert`, `storage.upload`) resolve with the canonical unavailable error;
`getUser`, `getSession`, the list-shaped reads, `storage.remove`,
`getPublicUrl` and `signOut` all resolve successfully (`error = null`); and
the session-change subscription immediately emits exactly one synthetic
`SIGNED_OUT` notification with no session. -/
theorem C2_mock_surface (op : MockOp) :
    mockOpError op =
      (if op ∈ mockUnavailableOps then some mockUnavailableError else none) ∧
    mockOpError MockOp.authSignOut = none ∧
    mockAuthStateChangeEmissions = [("SIGNED_OUT", (none : Option SessionObj))] := by
  refine ⟨?_, rfl, rfl⟩
  cases op <;> rfl

/-! ## C3 -/

/-- The claim's wording of the required-field merge: the update's value if
non-empty, otherwise the prior profile's value if non-empty, otherwise the
empty string. -/
def specMergeField (upd prior : Option String) : String :=
  if upd.getD "" ≠ "" then upd.getD ""
  else if prior.getD "" ≠ "" then prior.getD ""
  else ""

theorem jsOrStr_eq_specMergeField (a b : Option String) :
    jsOrStr a b = specMergeField a b := by
  cases a <;> cases b <;> simp only [jsOrStr, specMergeField, Option.getD] <;>
    split_ifs <;> simp_all

theorem specMergeField_ne_empty (a b : Option String) (h : b.getD "" ≠ "") :
    specMergeField a b ≠ "" := by
  unfold specMergeField
  split_ifs <;> simp_all

/-- C3: for every prior state and update, the `profileData` object that
`updateProfile` submits (under every backend outcome) merges each required
field as: the update's value if non-empty, otherwise the prior profile's value
if non-empty, otherwise `""`; consequently each required field is non-empty
whenever a prior non-empty value existed for it. -/
theorem C3_required_fields (s : AuthState) (u : String) (updates : ProfileUpdates)
    (updateRes : FetchOutcome UserProfile) (initRes : FetchOutcome Unit)
    (statsRes : FetchOutcome UserProgressStats)
    (subjRes : FetchOutcome (List SubjectProgress))
    (groupRes : FetchOutcome (Option SubjectGroup)) :
    (updateProfile { s with user := some u } updates updateRes initRes statsRes
        subjRes groupRes).submitted = some (buildProfileData s.profile updates) ∧
    (buildProfileData s.profile updates).first_name
      = specMergeField updates.first_name (s.profile.map UserProfile.first_name) ∧
    (buildProfileData s.profile updates).last_name
      = specMergeField updates.last_name (s.profile.map UserProfile.last_name) ∧
    (buildProfileData s.profile updates).grade
      = specMergeField updates.grade (s.profile.map UserProfile.grade) ∧
    ((buildProfileData s.profile updates).first_name ≠ "" ∨
      (s.profile.map UserProfile.first_name).getD "" = "") ∧
    ((buildProfileData s.profile updates).last_name ≠ "" ∨
      (s.profile.map UserProfile.last_name).getD "" = "") ∧
    ((buildProfileData s.profile updates).grade ≠ "" ∨
      (s.profile.map UserProfile.grade).getD "" = "") := by
  refine ⟨?_, jsOrStr_eq_specMergeField _ _, jsOrStr_eq_specMergeField _ _,
    jsOrStr_eq_specMergeField _ _, ?_, ?_, ?_⟩
  · cases updateRes with
    | threw e => rfl
    | ok p =>
      cases initRes <;>
        by_cases h : s.isNewUser <;>
          simp [updateProfile, h]
  · by_cases h : (s.profile.map UserProfile.first_name).getD "" = ""
    · exact Or.inr h
    · exact Or.inl (by
        rw [show (buildProfileData s.profile updates).first_name
            = jsOrStr updates.first_name (s.profile.map UserProfile.first_name) from rfl,
          jsOrStr_eq_specMergeField]
        exact specMergeField_ne_empty _ _ h)
  · by_cases h : (s.profile.map UserProfile.last_name).getD "" = ""
    · exact Or.inr h
    · exact Or.inl (by
        rw [show (buildProfileData s.profile updates).last_name
            = jsOrStr updates.last_name (s.profile.map UserProfile.last_name) from rfl,
          jsOrStr_eq_specMergeField]
        exact specMergeField_ne_empty _ _ h)
  · by_cases h : (s.profile.map UserProfile.grade).getD "" = ""
    · exact Or.inr h
    · exact Or.inl (by
        rw [show (buildProfileData s.profile updates).grade
            = jsOrStr updates.grade (s.profile.map UserProfile.grade) from rfl,
          jsOrStr_eq_specMergeField]
        exact specMergeField_ne_empty _ _ h)

/-! ## C6 -/

/-- C6: for every finite, non-empty sequence of applied session-change
notifications (written `l ++ [n]`, with `n` the most recently applied one),
the final `user` and `session` fields equal the last notification's payload;
a notification carrying no session additionally clears `profile`,
`progressStats`, `subjectProgress`, `isNewUser` and `hasSubjectGroup`; and
every notification ends with `loading = false`. -/
theorem C6_last_notification_wins (s : AuthState) (l : List AuthNotification)
    (n : AuthNotification) :
    (List.foldl onAuthStateChange s (l ++ [n])).session = n.session ∧
    (List.foldl onAuthStateChange s (l ++ [n])).user = n.session.map SessionObj.userId ∧
    (List.foldl onAuthStateChange s (l ++ [n])).loading = false ∧
    (match n.session with
     | none =>
       (List.foldl onAuthStateChange s (l ++ [n])).profile = none ∧
       (List.foldl onAuthStateChange s (l ++ [n])).progressStats = none ∧
       (List.foldl onAuthStateChange s (l ++ [n])).subjectProgress = [] ∧
       (List.foldl onAuthStateChange s (l ++ [n])).isNewUser = false ∧
       (List.foldl onAuthStateChange s (l ++ [n])).hasSubjectGroup = false
     | some _ => True) := by
  have hfold : List.foldl onAuthStateChange s (l ++ [n])
      = onAuthStateChange (List.foldl onAuthStateChange s l) n := by
    rw [List.foldl_append, List.foldl_cons, List.foldl_nil]
  rw [hfold]
  cases hn : n.session with
  | none => simp [onAuthStateChange, hn]
  | some sess => simp [onAuthStateChange, hn]

/-! ## C7 -/

/-- Following the claim's wording: a network-class outcome of one probe check —
a timeout or abort (which the transport wrapper surfaces as a thrown error) or
an error whose message signals a fetch/connect failure. -/
def specNetworkClassCheck (r : CheckResult) : Bool :=
  match r with
  | .threw => true
  | .ok none => false
  | .ok (some e) =>
    includes e.message "Failed to fetch" || includes e.message "NetworkError" ||
    includes e.message "Connection timeout" || includes e.message "fetch is not defined" ||
    includes e.message "abort" || includes e.message "timeout"

/-- The conditions under which the probe actually reports `false`: a thrown
check, a network-classified error message, or a backend-fault message on the
data-layer check. -/
def probeFalseReason (a d : CheckResult) : Bool :=
  match a with
  | .threw => true
  | .ok ae =>
    (match ae with
     | some e => authNetworkPattern e
     | none => false) ||
    (match d with
     | .threw => true
     | .ok none => false
     | .ok (some e) => dbNetworkPattern e || dbFaultPattern e)

/-- C7 counterexample: a probe run whose two checks both resolve, the
data-layer one with an `unexpected_failure` backend-fault error, returns
`false` even though neither check outcome is a network-class failure (no
timeout, no fetch/connect failure, no abort). -/
theorem C7_counterexample :
    testSupabaseConnection (CheckResult.ok none)
      (CheckResult.ok (some ⟨"unexpected_failure", "XX000"⟩)) = false ∧
    specNetworkClassCheck (CheckResult.ok (some ⟨"unexpected_failure", "XX000"⟩)) = false ∧
    specNetworkClassCheck (CheckResult.ok none) = false := by
  decide

/-- C7 (amended): the probe always resolves to a boolean (it is a total
function in this model); it tolerates absent schema, answering `true` whenever
both checks resolve, the data-layer error matches the absent-schema patterns
and no network pattern matches; and it answers `false` only when a check
throws, an error message is network-classified, or the data-layer error
signals a backend fault (`Database error` / `unexpected_failure`). -/
theorem C7_probe_classification (a d : CheckResult) :
    (testSupabaseConnection a d = false → probeFalseReason a d = true) ∧
    (∀ e : PgError, dbNetworkPattern e = false → dbSchemaAbsentPattern e = true →
      testSupabaseConnection (CheckResult.ok none) (CheckResult.ok (some e)) = true) := by
  constructor
  · cases a with
    | threw => intro _; rfl
    | ok ae =>
      cases d with
      | threw => intro _; cases ae <;> simp [probeFalseReason]
      | ok de =>
        cases de with
        | none =>
          cases ae with
          | none => intro h; simp [testSupabaseConnection] at h
          | some ea =>
            intro h
            simp only [testSupabaseConnection] at h
            by_cases hn : authNetworkPattern ea = true
            · simp [probeFalseReason, hn]
            · simp [hn] at h
        | some ed =>
          cases ae with
          | none =>
            intro h
            simp only [testSupabaseConnection] at h
            simp only [probeFalseReason, Bool.false_or, Bool.or_eq_true]
            by_cases h1 : dbNetworkPattern ed = true
            · exact Or.inl h1
            · by_cases h2 : dbSchemaAbsentPattern ed = true
              · simp [h1, h2] at h
              · by_cases h3 : dbFaultPattern ed = true
                · exact Or.inr h3
                · simp [h1, h2, h3] at h
          | some ea =>
            intro h
            simp only [testSupabaseConnection] at h
            simp only [probeFalseReason, Bool.or_eq_true]
            by_cases hn : authNetworkPattern ea = true
            · exact Or.inl hn
            · simp only [hn, if_false, Bool.false_eq_true, if_neg] at h
              refine Or.inr ?_
              by_cases h1 : dbNetworkPattern ed = true
              · exact Or.inl h1
              · by_cases h2 : dbSchemaAbsentPattern ed = true
                · simp [hn, h1, h2] at h
                · by_cases h3 : dbFaultPattern ed = true
                  · exact Or.inr h3
                  · simp [hn, h1, h2, h3] at h
  · intro e h1 h2
    simp [testSupabaseConnection, h1, h2]

/-- C7 witness: the classification theorem applied to a thrown auth check and
to a concrete absent-schema error. -/
theorem C7_probe_classification_witness :
    probeFalseReason CheckResult.threw (CheckResult.ok none) = true ∧
    dbNetworkPattern ⟨"relation user_profiles does not exist", "42P01"⟩ = false ∧
    dbSchemaAbsentPattern ⟨"relation user_profiles does not exist", "42P01"⟩ = true ∧
    testSupabaseConnection (CheckResult.ok none)
      (CheckResult.ok (some ⟨"relation user_profiles does not exist", "42P01"⟩)) = true := by
  refine ⟨(C7_probe_classification CheckResult.threw (CheckResult.ok none)).1 (by decide),
    by decide, by decide,
    (C7_probe_classification (CheckResult.ok none) (CheckResult.ok none)).2
      ⟨"relation user_profiles does not exist", "42P01"⟩ (by decide) (by decide)⟩

/-! ## C8 -/

/-- C8: if the backend `AuthService.updateUserProfile` call inside
`updateProfile` fails, the operation is atomic at the state layer: the stored
profile is unchanged, the error field is set, and the exception is rethrown to
the caller. -/
theorem C8_updateProfile_failure_atomic (s : AuthState) (u : String)
    (updates : ProfileUpdates) (e : JsError)
    (initRes : FetchOutcome Unit) (statsRes : FetchOutcome UserProgressStats)
    (subjRes : FetchOutcome (List SubjectProgress))
    (groupRes : FetchOutcome (Option SubjectGroup)) :
    (updateProfile { s with user := some u } updates (FetchOutcome.threw e)
        initRes statsRes subjRes groupRes).state.profile = s.profile ∧
    (updateProfile { s with user := some u } updates (FetchOutcome.threw e)
        initRes statsRes subjRes groupRes).state.error.isSome = true ∧
    (updateProfile { s with user := some u } updates (FetchOutcome.threw e)
        initRes statsRes subjRes groupRes).result = ActionResult.threw e := by
  refine ⟨?_, ?_, rfl⟩
  · exact handleSupabaseError_profile e "Profile update"
      { s with user := some u, error := none }
  · exact handleSupabaseError_error_isSome e "Profile update"
      { s with user := some u, error := none }
